import Mathlib

/-!
Shallow embedding of the `react-map-gl-amplify-here-map` sample from the
amazon-location-samples repository, covering `App.js` (the application state,
Hub event handlers `handleMarkers`, `handleRouting`, `handleViewport`, the
route-calculation / zoom side effects, `resetView`, `handleMapClick`) and
`src/components/routing/Inputs.js` (`formatAddress`, `RoutingMenuInput`'s
debounced-search effect, `searchByText`).

JavaScript values are modelled as follows: `undefined` entries of the markers
array are `Option.none`; a marker object is a record of optional fields, so the
empty object `\x7b\x7d` is the record with every field `none`; `Object.keys(m).length > 0`
becomes "some field is `some`"; coordinates are rationals.
-/

namespace LocationSamples

/-- A longitude/latitude pair as used by the sample (`lngLat`, `geometry.point`). -/
structure LngLat where
  lng : Rat
  lat : Rat
deriving DecidableEq, Repr

/-- The `geometry` field of a geocoded place: holds the `point` coordinate. -/
structure Geometry where
  point : LngLat
deriving DecidableEq, Repr

/-- A marker / place object as stored in the `markers` state and returned by the
geocoder. Every field is optional: the empty JS object has all fields `none`. -/
structure MarkerObj where
  geometry : Option Geometry := none
  label : Option String := none
  street : Option String := none
  addressNumber : Option String := none
  postalCode : Option String := none
  municipality : Option String := none
  country : Option String := none
  source : Option String := none
deriving DecidableEq, Repr

/-- JS `Object.keys(marker).length > 0`: at least one field of the object is set. -/
def MarkerObj.isNonEmpty (m : MarkerObj) : Bool :=
  m.geometry.isSome || m.label.isSome || m.street.isSome || m.addressNumber.isSome ||
    m.postalCode.isSome || m.municipality.isSome || m.country.isSome || m.source.isSome

/-- The per-marker guard of the route-calculation effect in `App.js`:
`marker !== undefined && typeof marker === "object" && Object.keys(marker).length > 0`
(an `Option.none` entry models an `undefined` array slot, whose `typeof` is not
`"object"`). -/
def validMarker : Option MarkerObj → Bool
  | none => false
  | some m => m.isNonEmpty

/-- The guard of the route-calculation effect in `App.js`:
`markers.length >= 2 && markers.every(validMarker)`. The remote
`calculateRoute` call is issued exactly when this is true. -/
def shouldCalculateRoute (markers : List (Option MarkerObj)) : Bool :=
  2 ≤ markers.length && markers.all validMarker

/-- The `Summary` of a route-calculation response (`RouteBBox` is what
`zoomToRoute` consumes). -/
structure RouteSummary where
  routeBBox : List Rat
deriving DecidableEq, Repr

/-- A route-calculation response. `metadata` models the `$metadata` field that
the effect deletes before storing the response in state. -/
structure RouteResponse where
  summary : RouteSummary
  metadata : Option String := none
deriving DecidableEq, Repr

/-- `delete res.$metadata` in the route effect of `App.js`. -/
def stripMetadata (r : RouteResponse) : RouteResponse :=
  { r with metadata := none }

/-- The viewport state of `App.js` (latitude, longitude, zoom). -/
structure Viewport where
  longitude : Rat
  latitude : Rat
  zoom : Rat
deriving DecidableEq, Repr

/-- JS object-key assignment `obj[key] = value` on an object modelled as an
association list: replace the binding if present, otherwise append it. -/
def setKey {α : Type} : List (String × α) → String → α → List (String × α)
  | [], k, v => [(k, v)]
  | (k0, v0) :: rest, k, v =>
      if k0 = k then (k0, v) :: rest else (k0, v0) :: setKey rest k v

/-- The truck-options object: `Weight.Unit`, `Dimensions.Unit`, the avoidance
flags written by `changeAvoidances`, and the option objects written by
`changeTruckOptions`. -/
structure TruckOptions where
  weightUnit : String
  dimensionsUnit : String
  avoidances : List (String × Bool) := []
  options : List (String × String) := []
deriving DecidableEq, Repr

/-- The car-options object: avoidance flags written by `changeAvoidances`. -/
abbrev CarOptions := List (String × Bool)

/-- Modelled from the spec: the `AppContext` module (with `UnitsEnum`) is not
part of the provided sources; per the spec's data model, user-selected units
toggle between imperial and metric distance/weight/dimension units. -/
structure UnitsRec where
  distance : String
  weight : String
  dimensions : String
deriving DecidableEq, Repr

/-- Modelled from the spec: `UnitsEnum[data.toUpperCase()]` lookup. -/
def unitsEnum (u : String) : UnitsRec :=
  if u = "IMPERIAL" then ⟨"Miles", "Pounds", "Feet"⟩
  else ⟨"Kilometers", "Kilograms", "Meters"⟩

/-- The whole application state of `App.js`: the `useState` variables plus the
two zoom-guard refs. -/
structure AppState where
  viewport : Viewport
  markers : List (Option MarkerObj)
  isRouting : Bool
  route : Option RouteResponse
  routingMode : String
  truckOptions : TruckOptions
  carOptions : CarOptions
  departureTime : Int
  distanceUnit : String
  units : String
  isRouteZoomed : Bool
  isPointZoomed : Bool
deriving DecidableEq, Repr

/-- Modelled from the spec: `defaultState.markers` from the missing
`AppContext` module; markers start empty (no marker until user interaction). -/
def defaultMarkers : List (Option MarkerObj) := []

/-- Modelled from the spec: `defaultState.route`; no route until one is
calculated (the route effect compares `route !== defaultState.route`). -/
def defaultRoute : Option RouteResponse := none

/-- Modelled from the spec: `defaultState.isRouting`; routing mode starts off. -/
def defaultIsRouting : Bool := false

/-- Modelled from the spec: `defaultState.routingMode` (Car / Truck / Walking);
the concrete default value is opaque to every claim. -/
def defaultRoutingMode : String := "Car"

/-- Modelled from the spec: `defaultState.truckOptions` with metric units. -/
def defaultTruckOptions : TruckOptions :=
  { weightUnit := "Kilograms", dimensionsUnit := "Meters" }

/-- Modelled from the spec: `defaultState.carOptions` (no avoidances). -/
def defaultCarOptions : CarOptions := []

/-- Modelled from the spec: `defaultState.departureTime`. -/
def defaultDepartureTime : Int := 0

/-- `resetView` from `App.js`: restore markers, route, routing flags, vehicle
options and departure time to their defaults and clear both zoom refs. -/
def resetView (s : AppState) : AppState :=
  { s with
    isRouting := defaultIsRouting
    markers := defaultMarkers
    route := defaultRoute
    routingMode := defaultRoutingMode
    truckOptions := defaultTruckOptions
    carOptions := defaultCarOptions
    departureTime := defaultDepartureTime
    isRouteZoomed := false
    isPointZoomed := false }

/-- The initial viewport of `App.js` (Las Vegas), with fractional digits kept. -/
def initialViewport : Viewport :=
  { longitude := -115.17130273723231, latitude := 36.12185075270952, zoom := 13 }

/-- The application state at mount: every `useState` starts from its default
and both zoom refs start `false`. The `distanceUnit` / `units` defaults come
from the missing `AppContext` (modelled from the spec as metric). -/
def initialAppState : AppState :=
  { viewport := initialViewport
    markers := defaultMarkers
    isRouting := defaultIsRouting
    route := defaultRoute
    routingMode := defaultRoutingMode
    truckOptions := defaultTruckOptions
    carOptions := defaultCarOptions
    departureTime := defaultDepartureTime
    distanceUnit := "Kilometers"
    units := "metric"
    isRouteZoomed := false
    isPointZoomed := false }

/-- JS array element lookup `markers[idx]`: out-of-range indices and holes read
as `undefined` (`none`). -/
def getEntry (ms : List (Option MarkerObj)) (i : Nat) : Option MarkerObj :=
  ms.getD i none

/-- JS array index assignment `newMarkers[idx] = v`: writing past the end
extends the array with holes (`none`). -/
def setIdx : List (Option MarkerObj) → Nat → Option MarkerObj → List (Option MarkerObj)
  | [], 0, v => [v]
  | [], n + 1, v => none :: setIdx [] n v
  | _ :: xs, 0, v => v :: xs
  | x :: xs, n + 1, v => x :: setIdx xs n v

/-- The `setMarker` branch of `handleMarkers` in `App.js`. `resolvedMarker` is
the value of the local `marker` variable after the `geocode` branch: the
geocoder result on success, the payload's marker when `geocode` is false, and
`none` (JS `undefined`) when the `Geo.searchByCoordinates` promise rejected
(the `catch` only logs, and execution continues). `\x7b...marker, source\x7d` spreads
`undefined` to the empty object, so the stored object always gets a `source`
field. -/
def applySetMarker (s : AppState) (idx : Nat) (force : Bool)
    (resolvedMarker : Option MarkerObj) (source : String) : AppState :=
  let stored : MarkerObj := { resolvedMarker.getD {} with source := some source }
  if (getEntry s.markers idx).isSome && !force then
    { s with markers := some stored :: s.markers }
  else
    { s with
      markers := setIdx s.markers idx (some stored)
      isPointZoomed := if idx = 0 then false else s.isPointZoomed }

/-- The `swapMarkers` branch of `handleMarkers`: a single marker is put in
first place followed by an empty placeholder object; two markers are
exchanged; any other length produces the empty array. -/
def swapMarkers : List (Option MarkerObj) → List (Option MarkerObj)
  | [a] => [a, some {}]
  | [a, b] => [b, a]
  | _ => []

/-- The Hub / effect events of `App.js` that drive the application state:
`Viewport`, `Markers` and `Routing` channel events plus the asynchronous
completions of the route-calculation effect and the two zoom effects. -/
inductive HubEvent where
  | viewportUpdate (vp : Viewport)
  | closeToast
  | cleanUp
  | swapMarkersEvt
  | setMarkerEvt (idx : Nat) (force : Bool) (resolvedMarker : Option MarkerObj) (source : String)
  | startRouting
  | endRouting
  | changeRoutingMode (mode : String)
  | changeAvoidances (source : String) (key : String) (value : Bool)
  | changeTruckOptions (source : String) (value : String)
  | changeDepartureTime (t : Int)
  | changeDistanceUnit (u : String)
  | changeUnits (u : String)
  | routeEffectRun (outcome : Except Unit RouteResponse)
  | routeZoomEffectRun
  | pointZoomEffectRun

/-- One step of the application: the three Hub handlers (`handleViewport`,
`handleMarkers`, `handleRouting`) and the three side effects of `App.js`.
`fit` abstracts the vendor `WebMercatorViewport.fitBounds` computation used by
`zoomToRoute` (vendor code outside the repository); the theorems below
quantify over it. -/
def step (fit : RouteResponse → Viewport → Viewport) :
    HubEvent → AppState → AppState
  | .viewportUpdate vp, s => { s with viewport := vp }
  | .closeToast, s => resetView s
  | .cleanUp, s => resetView s
  | .swapMarkersEvt, s => { s with markers := swapMarkers s.markers }
  | .setMarkerEvt idx force m src, s => applySetMarker s idx force m src
  | .startRouting, s => { s with isRouting := true }
  | .endRouting, s => resetView s
  | .changeRoutingMode m, s =>
      if m ≠ s.routingMode then
        { s with
          routingMode := m
          truckOptions := defaultTruckOptions
          carOptions := defaultCarOptions }
      else s
  | .changeAvoidances src key v, s =>
      if src = "Car" then { s with carOptions := setKey s.carOptions key v }
      else if src = "Truck" then
        { s with truckOptions :=
            { s.truckOptions with avoidances := setKey s.truckOptions.avoidances key v } }
      else s
  | .changeTruckOptions src v, s =>
      { s with truckOptions :=
          { s.truckOptions with options := setKey s.truckOptions.options src v } }
  | .changeDepartureTime t, s =>
      if t ≠ s.departureTime then { s with departureTime := t } else s
  | .changeDistanceUnit u, s => { s with distanceUnit := u }
  | .changeUnits u, s =>
      if u ≠ s.units then
        let ue := unitsEnum u.toUpper
        { s with
          distanceUnit := ue.distance
          truckOptions :=
            { s.truckOptions with weightUnit := ue.weight, dimensionsUnit := ue.dimensions }
          units := u }
      else s
  | .routeEffectRun outcome, s =>
      if shouldCalculateRoute s.markers then
        match outcome with
        | .ok res => { s with isRouteZoomed := false, route := some (stripMetadata res) }
        | .error _ => s
      else s
  | .routeZoomEffectRun, s =>
      if s.route.isSome && !s.isRouteZoomed then
        { s with
          isRouteZoomed := true
          viewport := (s.route.map (fun r => fit r s.viewport)).getD s.viewport }
      else s
  | .pointZoomEffectRun, s =>
      if s.markers.length = 1 && !s.isPointZoomed then
        { s with
          isPointZoomed := true
          viewport :=
            match (getEntry s.markers 0).bind (fun m => m.geometry) with
            | some g => { s.viewport with longitude := g.point.lng, latitude := g.point.lat, zoom := 15 }
            | none => s.viewport }
      else s

/-- The dispatch produced by a single map click in `handleMapClick`. -/
inductive ClickDispatch where
  | cleanUpClick
  | setMarkerClick (idx : Nat) (lngLat : LngLat) (geocode : Bool) (force : Bool)
  | setMarkerUndefinedData
deriving DecidableEq, Repr

/-- `handleMapClick` from `App.js`: with a marker present outside routing mode
the click dispatches `cleanUp` and returns; otherwise it dispatches a
`setMarker` event at index 0 with `geocode: true`, forcing when there are zero
or two markers and not forcing when there is exactly one. With three or more
markers in routing mode the `data` local stays `undefined` and the dispatch
carries no data. -/
def handleMapClick (markers : List (Option MarkerObj)) (isRouting : Bool)
    (lngLat : LngLat) : ClickDispatch :=
  if 0 < markers.length && !isRouting then .cleanUpClick
  else if markers.length = 0 || markers.length = 2 then
    .setMarkerClick 0 lngLat true true
  else if markers.length = 1 then
    .setMarkerClick 0 lngLat true false
  else .setMarkerUndefinedData

/-- The JS builtin `String.prototype.trim`, embedded on the character list:
drop whitespace from both ends. -/
def jsTrim (s : String) : String :=
  ⟨((s.data.dropWhile Char.isWhitespace).reverse.dropWhile Char.isWhitespace).reverse⟩

/-- The fall-through of `formatAddress` in `Inputs.js`: the `address.push`
sequence followed by `address.join(", ")`. -/
def formatAddressRest (m : MarkerObj) : String :=
  String.intercalate ", "
    (([m.street, m.addressNumber, m.postalCode, m.municipality]).filterMap id)

/-- `formatAddress` from `Inputs.js`: return the `label` field when it is
truthy (present and non-empty), otherwise join those of `street`,
`addressNumber`, `postalCode`, `municipality` that are defined, in that order,
with a comma separator; `country` is destructured but never used. -/
def formatAddress (m : MarkerObj) : String :=
  match m.label with
  | some l => if l = "" then formatAddressRest m else l
  | none => formatAddressRest m

/-- An entry of the `suggestions` state of `Inputs.js`: either a geocoder
result object or the literal no-result message string. -/
inductive Suggestion where
  | result (m : MarkerObj)
  | message (text : String)
deriving DecidableEq, Repr

/-- The sentinel string stored when the search returns no results. -/
def noResultMessage : String := "No result found for this address."

/-- The component state of `Inputs.js` touched by `searchByText`:
`suggestions` and the `hasSuggestions` flag lifted to the parent. -/
structure InputsState where
  suggestions : List Suggestion
  hasSuggestions : Bool
deriving DecidableEq, Repr

/-- `searchByText` from `Inputs.js`, as a state transformer: return early on a
value that trims to the empty string; on a rejected `Geo.searchByText` promise
only log (state unchanged); on success store the result list when non-empty,
otherwise the single no-result message, and raise `hasSuggestions`. -/
def searchByTextStep (value : String) (outcome : Except Unit (List MarkerObj))
    (st : InputsState) : InputsState :=
  if jsTrim value = "" then st
  else
    match outcome with
    | .error _ => st
    | .ok res =>
        { suggestions :=
            if 0 < res.length then res.map Suggestion.result
            else [Suggestion.message noResultMessage]
          hasSuggestions := true }

/-- The remote call issued by `searchByText` when its guard passes: the search
text, the bias position, and `maxResults: 5`. -/
structure SearchCall where
  text : String
  bias : LngLat
  maxResults : Nat
deriving DecidableEq, Repr

/-- The call-issuing part of `searchByText`: `none` when the early-return guard
fires, otherwise the `Geo.searchByText` call that is made. -/
def searchByTextCall (value : String) (bias : LngLat) : Option SearchCall :=
  if jsTrim value = "" then none else some ⟨value, bias, 5⟩

/-- The debounced-value effect of `RoutingMenuInput` in `Inputs.js`, composed
with `handleValueChange` and the call-issuing part of `searchByText`: when the
debounced value differs from the input's default (the marker's formatted
address), `handleValueChange` is invoked with the trimmed value and the
viewport center, which forwards them to `searchByText`. The result is the
remote search call issued by one effect run, if any. -/
def routingInputEffectCall (debouncedValue : String) (marker : MarkerObj)
    (viewportCenter : LngLat) : Option SearchCall :=
  if debouncedValue ≠ formatAddress marker then
    searchByTextCall (jsTrim debouncedValue) viewportCenter
  else none

/-- A concrete geocoded marker used as a test input in the theorems below. -/
def originMarker : MarkerObj :=
  { geometry := some ⟨⟨-115, 36⟩⟩, label := some "Origin", source := some "map" }

/-- A second concrete geocoded marker used as a test input. -/
def destMarker : MarkerObj :=
  { geometry := some ⟨⟨-116, 37⟩⟩, label := some "Destination", source := some "routingMenu" }

/-- A concrete place record whose `label` is present but empty, used as a test
input for `formatAddress`. -/
def emptyLabelMarker : MarkerObj :=
  { label := some "", street := some "Main Street" }

/-- A trivial instantiation of the vendor `fitBounds` computation, used to run
the step function on concrete inputs. -/
def idFit : RouteResponse → Viewport → Viewport := fun _ vp => vp

/-- The guard of the route-zoom effect in `App.js`:
`route !== defaultState.route && !isRouteZoomedRef.current`. When true, the
next run of the effect animates the viewport to the route's bounding box. -/
def routeZoomFires (s : AppState) : Bool :=
  s.route.isSome && !s.isRouteZoomed

/-- C1: the claim asserts every marker stored by the `setMarker` handler,
including on the path where the reverse-geocode call rejects, has a
`geometry.point` coordinate. The code violates this: when
`Geo.searchByCoordinates` rejects, the `catch` only logs and the handler still
stores `\x7b...undefined, source\x7d`, an object whose only field is `source`. That
object passes the route effect's non-empty-object guard while its `geometry`
is absent, so `marker.geometry.point` is an undefined access. Evaluated here
at a state with one valid origin marker receiving a rejected-geocode
`setMarker` event at index 0 with `force: false`. -/
theorem setMarker_reject_stores_geometryless_marker :
    ((step idFit (.setMarkerEvt 0 false none "map")
        { initialAppState with markers := [some originMarker] }).markers =
      [some ({ source := some "map" } : MarkerObj), some originMarker]) ∧
    (shouldCalculateRoute
        (step idFit (.setMarkerEvt 0 false none "map")
          { initialAppState with markers := [some originMarker] }).markers = true) ∧
    ((getEntry
        (step idFit (.setMarkerEvt 0 false none "map")
          { initialAppState with markers := [some originMarker] }).markers 0).bind
        (fun m => m.geometry) = none) := by
  refine ⟨rfl, rfl, rfl⟩

/-- C2 counterexample: the claim asserts that when an API promise rejects the
component state is left exactly as before the call. For the reverse-geocode
call inside `setMarker` this is false: after the rejection the handler still
prepends a source-only marker, so the markers state changes. -/
theorem setMarker_reject_changes_markers :
    (step idFit (.setMarkerEvt 0 false none "map")
        { initialAppState with markers := [some originMarker] }).markers ≠
      [some originMarker] := by decide

/-- C2 (amended): rejected text-search and route-calculation promises are
logged and ignored, leaving the component state unchanged; a rejected
reverse-geocode inside `setMarker` is logged but the handler still stores a
marker object holding only the `source` field (prepended when the indexed slot
is occupied and `force` is false, otherwise written at the index). -/
theorem rejection_log_and_ignore_amended :
    (∀ v st, searchByTextStep v (.error ()) st = st) ∧
    (∀ f s, step f (.routeEffectRun (.error ())) s = s) ∧
    (∀ f s idx force src,
      (step f (.setMarkerEvt idx force none src) s).markers =
        if (getEntry s.markers idx).isSome && !force then
          some ({ source := some src } : MarkerObj) :: s.markers
        else setIdx s.markers idx (some ({ source := some src } : MarkerObj))) := by
  refine ⟨?_, ?_, ?_⟩
  · intro v st
    unfold searchByTextStep
    split <;> rfl
  · intro f s
    show (if shouldCalculateRoute s.markers then s else s) = s
    split <;> rfl
  · intro f s idx force src
    show (applySetMarker s idx force none src).markers = _
    unfold applySetMarker
    split <;> rfl

/-- C3 counterexample: the claim asserts each successful `searchByText` call
sets the suggestions state to exactly the returned result list. False when the
call resolves with the empty list: the code stores the single no-result
message instead of the empty list. -/
theorem searchByText_empty_results_sentinel :
    (searchByTextStep "a" (.ok []) ⟨[], false⟩).suggestions ≠
      ([] : List MarkerObj).map Suggestion.result := by decide

/-- C3 (amended): a successful `searchByText` call with a non-empty result
list sets the suggestions state to exactly that list; with an empty result
list it stores the single no-result message; a successful route calculation
sets the route state to the response with only the `$metadata` field
removed. -/
theorem ui_reflects_last_response_amended :
    (∀ v res st, jsTrim v ≠ "" → res ≠ [] →
      (searchByTextStep v (.ok res) st).suggestions = res.map Suggestion.result) ∧
    (∀ v st, jsTrim v ≠ "" →
      (searchByTextStep v (.ok []) st).suggestions = [Suggestion.message noResultMessage]) ∧
    (∀ f s res, shouldCalculateRoute s.markers = true →
      (step f (.routeEffectRun (.ok res)) s).route = some (stripMetadata res)) := by
  refine ⟨?_, ?_, ?_⟩
  · intro v res st h1 h2
    unfold searchByTextStep
    rw [if_neg h1]
    simp [List.length_pos.mpr h2]
  · intro v st h1
    unfold searchByTextStep
    rw [if_neg h1]
    simp
  · intro f s res h
    show (if shouldCalculateRoute s.markers then
        { s with isRouteZoomed := false, route := some (stripMetadata res) } else s).route = _
    rw [if_pos h]

/-- C3 witness: the amended statement applied to a concrete successful search
returning one result. -/
theorem ui_reflects_last_response_amended_witness :
    (searchByTextStep "Main" (.ok [originMarker]) ⟨[], false⟩).suggestions =
      [originMarker].map Suggestion.result :=
  ui_reflects_last_response_amended.1 "Main" [originMarker] ⟨[], false⟩
    (by decide) (by decide)

/-- C4: the route-calculation effect issues the remote `calculateRoute` call
if and only if the markers state holds at least two markers and every marker
is a defined, non-empty object; with fewer than two markers, or any empty or
undefined placeholder, no remote call is made. -/
theorem route_call_iff_two_valid_markers (markers : List (Option MarkerObj)) :
    shouldCalculateRoute markers = true ↔
      (2 ≤ markers.length ∧ ∀ m ∈ markers, ∃ mo, m = some mo ∧ mo.isNonEmpty = true) := by
  simp only [shouldCalculateRoute, Bool.and_eq_true, decide_eq_true_eq, List.all_eq_true]
  constructor
  · rintro ⟨h1, h2⟩
    refine ⟨h1, ?_⟩
    intro m hm
    cases m with
    | none => exact absurd (h2 none hm) (by decide)
    | some mo => exact ⟨mo, rfl, h2 (some mo) hm⟩
  · rintro ⟨h1, h2⟩
    refine ⟨h1, ?_⟩
    intro m hm
    obtain ⟨mo, rfl, hmo⟩ := h2 m hm
    exact hmo

/-- C4 witness: the iff applied to a concrete two-marker state for which the
guard evaluates to true. -/
theorem route_call_iff_two_valid_markers_witness :
    2 ≤ [some originMarker, some destMarker].length ∧
      ∀ m ∈ [some originMarker, some destMarker], ∃ mo, m = some mo ∧ mo.isNonEmpty = true :=
  (route_call_iff_two_valid_markers [some originMarker, some destMarker]).mp (by decide)

/-- C5: the debounced-input effect issues a remote search call only when the
debounced value differs from the input's default (the marker's formatted
address); when a call is issued it carries the trimmed text, the current
viewport center as bias position, and `maxResults` 5; a value that trims to
the empty string never produces a call. -/
theorem debounced_search_call_guard (v : String) (m : MarkerObj) (c : LngLat) :
    (routingInputEffectCall v m c ≠ none → v ≠ formatAddress m) ∧
    (∀ call, routingInputEffectCall v m c = some call →
      call.text = jsTrim v ∧ call.bias = c ∧ call.maxResults = 5) ∧
    (jsTrim v = "" → routingInputEffectCall v m c = none) := by
  refine ⟨?_, ?_, ?_⟩
  · intro hne heq
    apply hne
    simp [routingInputEffectCall, heq]
  · intro call hc
    unfold routingInputEffectCall at hc
    split at hc
    · unfold searchByTextCall at hc
      split at hc
      · exact absurd hc (by simp)
      · cases hc
        exact ⟨rfl, rfl, rfl⟩
    · exact absurd hc (by simp)
  · intro h0
    unfold routingInputEffectCall searchByTextCall
    rw [h0]
    split <;> simp [jsTrim]

/-- C5 witness: the guard applied to a concrete debounced value that issues a
call against the empty default marker. -/
theorem debounced_search_call_guard_witness :
    ("Main" : String) ≠ formatAddress ({} : MarkerObj) :=
  (debounced_search_call_guard "Main" {} ⟨0, 0⟩).1 (by decide)

/-- C6: the route-zoom effect fires at most once per route: after any run of
the effect its firing guard is false, and the `isRouteZoomed` flag, once set,
is cleared only by a new successful route result or by a view reset
(`endRouting`, `closeToast`, `cleanUp`). -/
theorem route_zoom_at_most_once (f : RouteResponse → Viewport → Viewport)
    (s : AppState) (e : HubEvent) :
    routeZoomFires (step f .routeZoomEffectRun s) = false ∧
    (s.isRouteZoomed = true → (step f e s).isRouteZoomed = false →
      (∃ r, e = .routeEffectRun (.ok r)) ∨ e = .endRouting ∨ e = .closeToast ∨ e = .cleanUp) := by
  constructor
  · show routeZoomFires
      (if s.route.isSome && !s.isRouteZoomed then
        { s with
          isRouteZoomed := true
          viewport := (s.route.map (fun r => f r s.viewport)).getD s.viewport }
       else s) = false
    by_cases hb : (s.route.isSome && !s.isRouteZoomed) = true
    · rw [if_pos hb]
      simp [routeZoomFires]
    · rw [if_neg hb]
      simpa [routeZoomFires] using hb
  · intro h1 h2
    cases e with
    | viewportUpdate vp => simp [step, h1] at h2
    | closeToast => exact Or.inr (Or.inr (Or.inl rfl))
    | cleanUp => exact Or.inr (Or.inr (Or.inr rfl))
    | swapMarkersEvt => simp [step, h1] at h2
    | setMarkerEvt idx force m src =>
        simp only [step] at h2
        unfold applySetMarker at h2
        split at h2 <;> simp [h1] at h2
    | startRouting => simp [step, h1] at h2
    | endRouting => exact Or.inr (Or.inl rfl)
    | changeRoutingMode mode =>
        simp only [step] at h2
        split at h2 <;> simp [h1] at h2
    | changeAvoidances src key v =>
        simp only [step] at h2
        split at h2
        · simp [h1] at h2
        · split at h2 <;> simp [h1] at h2
    | changeTruckOptions src v => simp [step, h1] at h2
    | changeDepartureTime t =>
        simp only [step] at h2
        split at h2 <;> simp [h1] at h2
    | changeDistanceUnit u => simp [step, h1] at h2
    | changeUnits u =>
        simp only [step] at h2
        split at h2 <;> simp [h1] at h2
    | routeEffectRun outcome =>
        cases outcome with
        | ok r => exact Or.inl ⟨r, rfl⟩
        | error err =>
            simp only [step] at h2
            split at h2 <;> simp [h1] at h2
    | routeZoomEffectRun =>
        simp only [step] at h2
        split at h2 <;> simp [h1] at h2
    | pointZoomEffectRun =>
        simp only [step] at h2
        split at h2 <;> simp [h1] at h2

/-- C6 witness: the flag-clearing part applied to a concrete zoomed state and
the `endRouting` event. -/
theorem route_zoom_at_most_once_witness :
    (∃ r, HubEvent.endRouting = HubEvent.routeEffectRun (.ok r)) ∨
      HubEvent.endRouting = HubEvent.endRouting ∨
      HubEvent.endRouting = HubEvent.closeToast ∨
      HubEvent.endRouting = HubEvent.cleanUp :=
  (route_zoom_at_most_once idFit { initialAppState with isRouteZoomed := true }
      .endRouting).2 rfl rfl

/-- C7: a map click with at least one marker outside routing mode dispatches
`cleanUp` (which removes all markers and creates none); otherwise it
dispatches `setMarker` with `geocode: true` at index 0, with `force: true`
when there are zero or two markers and `force: false` when there is exactly
one. Stated for the reachable marker counts (at most two). -/
theorem map_click_case_split (markers : List (Option MarkerObj)) (isRouting : Bool)
    (ll : LngLat) (f : RouteResponse → Viewport → Viewport) :
    markers.length ≤ 2 →
    ((0 < markers.length ∧ isRouting = false) →
      handleMapClick markers isRouting ll = .cleanUpClick ∧
      ∀ s : AppState, (step f .cleanUp s).markers = []) ∧
    (¬(0 < markers.length ∧ isRouting = false) →
      (markers.length = 1 →
        handleMapClick markers isRouting ll = .setMarkerClick 0 ll true false) ∧
      (markers.length ≠ 1 →
        handleMapClick markers isRouting ll = .setMarkerClick 0 ll true true)) := by
  intro hlen
  constructor
  · rintro ⟨h1, h2⟩
    refine ⟨?_, fun s => rfl⟩
    simp [handleMapClick, h1, h2]
  · intro hn
    constructor
    · intro h1
      have hr : isRouting = true := by
        cases isRouting with
        | false => exact absurd ⟨by omega, rfl⟩ hn
        | true => rfl
      simp [handleMapClick, h1, hr]
    · intro h1
      rcases Nat.lt_or_ge markers.length 1 with h0 | hge
      · have hz : markers.length = 0 := by omega
        simp [handleMapClick, hz]
      · have h2 : markers.length = 2 := by omega
        have hr : isRouting = true := by
          cases isRouting with
          | false => exact absurd ⟨by omega, rfl⟩ hn
          | true => rfl
        simp [handleMapClick, h2, hr]

/-- C7 witness: the case split applied to a concrete one-marker state outside
routing mode. -/
theorem map_click_case_split_witness :
    handleMapClick [some originMarker] false ⟨0, 0⟩ = .cleanUpClick ∧
      ∀ s : AppState, (step idFit .cleanUp s).markers = [] :=
  (map_click_case_split [some originMarker] false ⟨0, 0⟩ idFit (by decide)).1
    ⟨by decide, rfl⟩

/-- C8: on a two-marker state `swapMarkers` exchanges the two markers and is
an involution on the whole application state; on a one-marker state it keeps
the marker in first position and appends an empty placeholder object. -/
theorem swap_markers_involution (a b : Option MarkerObj) (s : AppState)
    (f : RouteResponse → Viewport → Viewport) :
    (s.markers = [a, b] →
      (step f .swapMarkersEvt s).markers = [b, a] ∧
      step f .swapMarkersEvt (step f .swapMarkersEvt s) = s) ∧
    (s.markers = [a] →
      (step f .swapMarkersEvt s).markers = [a, some {}]) := by
  obtain ⟨vp, mks, ir, rt, rm, tro, co, dt, du, un, rz, pz⟩ := s
  constructor
  · intro h
    simp only at h
    subst h
    exact ⟨rfl, rfl⟩
  · intro h
    simp only at h
    subst h
    rfl

/-- C8 witness: the swap applied to a concrete two-marker state. -/
theorem swap_markers_involution_witness :
    (step idFit .swapMarkersEvt
        { initialAppState with markers := [some originMarker, some destMarker] }).markers =
      [some destMarker, some originMarker] ∧
    step idFit .swapMarkersEvt (step idFit .swapMarkersEvt
        { initialAppState with markers := [some originMarker, some destMarker] }) =
      { initialAppState with markers := [some originMarker, some destMarker] } :=
  (swap_markers_involution (some originMarker) (some destMarker)
      { initialAppState with markers := [some originMarker, some destMarker] } idFit).1 rfl

/-- C9 counterexample: the claim asserts `formatAddress` returns the `label`
field whenever it is present. False for a record whose label is present but
empty: the code tests truthiness, so it falls through to the joined fields
instead of returning the empty label. -/
theorem formatAddress_empty_label_counterexample :
    emptyLabelMarker.label = some "" ∧ formatAddress emptyLabelMarker = "Main Street" :=
  ⟨rfl, rfl⟩

/-- C9 (amended): `formatAddress` returns the label when it is present and
non-empty; otherwise it returns the comma-separated join of exactly those of
`street`, `addressNumber`, `postalCode`, `municipality` that are defined, in
that fixed order; the `country` field never influences the output, and a
record with none of these fields yields the empty string. -/
theorem formatAddress_amended (m : MarkerObj) :
    (∀ l, m.label = some l → l ≠ "" → formatAddress m = l) ∧
    ((m.label = none ∨ m.label = some "") →
      formatAddress m =
        String.intercalate ", "
          (([m.street, m.addressNumber, m.postalCode, m.municipality]).filterMap id)) ∧
    (∀ c, formatAddress { m with country := c } = formatAddress m) ∧
    (m.label = none → m.street = none → m.addressNumber = none → m.postalCode = none →
      m.municipality = none → formatAddress m = "") := by
  refine ⟨?_, ?_, ?_, ?_⟩
  · intro l hl hne
    simp [formatAddress, hl, hne]
  · rintro (h | h) <;> simp [formatAddress, formatAddressRest, h]
  · intro c
    rfl
  · intro h1 h2 h3 h4 h5
    simp [formatAddress, formatAddressRest, h1, h2, h3, h4, h5]
    rfl

/-- C9 witness: the amended statement applied to a record with a non-empty
label. -/
theorem formatAddress_amended_witness :
    formatAddress originMarker = "Origin" :=
  (formatAddress_amended originMarker).1 "Origin" rfl (by decide)

/-- C10: `resetView` (invoked by the `endRouting`, `closeToast` and `cleanUp`
events) restores markers, route, `isRouting`, `routingMode`, `truckOptions`,
`carOptions` and `departureTime` to their defaults and clears both zoom flags,
while leaving the viewport, `distanceUnit` and `units` — the only other pieces
of application state — unchanged. -/
theorem reset_view_frame (s : AppState) (f : RouteResponse → Viewport → Viewport) :
    (resetView s).viewport = s.viewport ∧
    (resetView s).distanceUnit = s.distanceUnit ∧
    (resetView s).units = s.units ∧
    (resetView s).markers = defaultMarkers ∧
    (resetView s).route = defaultRoute ∧
    (resetView s).isRouting = defaultIsRouting ∧
    (resetView s).routingMode = defaultRoutingMode ∧
    (resetView s).truckOptions = defaultTruckOptions ∧
    (resetView s).carOptions = defaultCarOptions ∧
    (resetView s).departureTime = defaultDepartureTime ∧
    (resetView s).isRouteZoomed = false ∧
    (resetView s).isPointZoomed = false ∧
    step f .endRouting s = resetView s ∧
    step f .closeToast s = resetView s ∧
    step f .cleanUp s = resetView s := by
  exact ⟨rfl, rfl, rfl, rfl, rfl, rfl, rfl, rfl, rfl, rfl, rfl, rfl, rfl, rfl, rfl⟩

end LocationSamples
